import Mathlib

/-!
# Korok: the game orchestrator (`game/game.go`)

A shallow embedding of `Game` and its lifecycle callbacks.

* The `Game` record keeps the fields that `game.go` reads or writes.
* Every call that `game.go` makes to a collaborator is appended to a call
  trace, carrying exactly the arguments passed at the call site.
* Values returned by collaborators whose code is not in `game.go`
  (`FPS.Smooth`, `gfx.Flush`, `gfx.NewRenderSystem`, ...) come from an
  oracle `Env`, indexed by the call history; theorems quantify over it.
* A nil pointer dereference is a fault; a faulted state is final
  (every later step leaves it unchanged).
* Collaborators are taken to change the fields of `Game` only through the
  effects modelled here.
-/

set_option maxRecDepth 100000

namespace Korok

/-! ## Constants (game.go, lines 19-28) -/

def MaxScriptSize : Nat := 1024

def MaxSpriteSize : Nat := 64 <<< 10

def MaxTransformSize : Nat := 64 <<< 10

def MaxTextSize : Nat := 64 <<< 10

def MaxMeshSize : Nat := 64 <<< 10

def MaxParticleSize : Nat := 1024

/-! ## Machine numbers -/

/-- Go `int` arithmetic, taken at 64 bit in two-complement form: the result
of an integer operation wraps into `[-2^63, 2^63)`. -/
def wrapInt (x : Int) : Int := (x + 2 ^ 63) % 2 ^ 64 - 2 ^ 63

/-- The number of low bits of `n` that do not fit a 24 bit significand: the
least `sh`, counting up from the given one, with `n < 2 ^ (24 + sh)`. The
first argument bounds the search; `n` itself is always enough. -/
def excessBits (n : Nat) : Nat → Nat → Nat
  | 0, sh => sh
  | fuel + 1, sh => if n < 2 ^ (24 + sh) then sh else excessBits n fuel (sh + 1)

/-- Rounding of a natural number to a 24 bit significand, to nearest with
ties to even: the magnitude of the Go conversion `float32(n)`. -/
def roundToFloat32 (n : Nat) : Nat :=
  if n < 2 ^ 24 then n
  else
    let sh := excessBits n n 0
    let q := n / 2 ^ sh
    let r := n % 2 ^ sh
    let half := 2 ^ (sh - 1)
    let q1 := if half < r ∨ (r = half ∧ q % 2 = 1) then q + 1 else q
    q1 * 2 ^ sh

/-- The Go conversion `float32(w)` of an integer `w`, as the exact value of
the resulting float (which is an integer for every int32 argument). -/
def float32OfInt (w : Int) : Int :=
  if w < 0 then -((roundToFloat32 w.natAbs : Nat) : Int)
  else ((roundToFloat32 w.natAbs : Nat) : Int)

/-- Modelled from the spec: the constant `math.MaxFloat32` of the korok math
package, which is not in `game.go`; the spec calls it the maximum
representable finite value, `(2^24 - 1) * 2^104` for a float32. -/
def MaxFloat32 : Int := (2 ^ 24 - 1) * 2 ^ 104

/-- A float32 that `game.go` only forwards (delta time, aspect ratio,
pointer coordinates, fps) and never computes with, kept as a code for the
value (its 32 bit pattern, say). -/
abbrev Float32Bits := Nat

/-! ## Data model -/

/-- Configuration: `type Options struct { W, H int }`. -/
structure Options where
  W : Int
  H : Int
deriving DecidableEq, Repr

/-- The seven kinds of table built by `loadTables`. -/
inductive TableKind where
  | script | tag | sprite | mesh | transform | text | particle
deriving DecidableEq, Repr

/-- A table is opaque to `game.go` (`type Table interface{}`): it is
identified by the constructor that built it and the capacity handed to that
constructor (`none` for the literal `&TagTable{}`). -/
structure Table where
  kind : TableKind
  capacity : Option Nat
deriving DecidableEq, Repr

def NewScriptTable (cap : Nat) : Table := ⟨.script, some cap⟩

def TagTable : Table := ⟨.tag, none⟩

def NewSpriteTable (cap : Nat) : Table := ⟨.sprite, some cap⟩

def NewMeshTable (cap : Nat) : Table := ⟨.mesh, some cap⟩

def NewTransformTable (cap : Nat) : Table := ⟨.transform, some cap⟩

def NewTextTable (cap : Nat) : Table := ⟨.text, some cap⟩

def NewParticleSystemTable (cap : Nat) : Table := ⟨.particle, some cap⟩

/-- The entity manager returned by `engi.NewEntityManager()`. -/
inductive EntityManager where
  | mk
deriving DecidableEq, Repr

/-- `type DB struct { EntityM *engi.EntityManager; Tables []interface{} }`. -/
structure DB where
  EntityM : Option EntityManager
  Tables : List Table
deriving DecidableEq, Repr

/-- The names handed to `asset.Shader.GetShaderStr`. -/
inductive ShaderName where
  | batch | mesh
deriving DecidableEq, Repr

/-- A renderer, identified by its constructor (`gfx.NewBatchRender`,
`gfx.NewMeshRender`) and the shader source it was built from. -/
inductive Render where
  | batchRender (shader : ShaderName)
  | meshRender (shader : ShaderName)
deriving DecidableEq, Repr

/-- The render features registered by `Create`. -/
inductive Feature where
  | sprite | mesh | text | particle
deriving DecidableEq, Repr

/-- The movement bound of a camera. -/
structure Bound where
  left : Int
  right : Int
  top : Int
  bottom : Int
deriving DecidableEq, Repr

/-- Modelled from the spec: the type `gfx.Camera`, which is not in
`game.go`. The spec gives it a viewport width and height plus an
axis-aligned movement bound (left, right, top, bottom). The floats stored
here are kept as their exact values. -/
structure Camera where
  viewW : Int
  viewH : Int
  bound : Bound
deriving DecidableEq, Repr

/-- Modelled from the spec: `Camera.SetViewPort`, which is not in `game.go`;
the spec says `setViewport(width, height)` stores the pixel dimensions. -/
def Camera.SetViewPort (c : Camera) (w h : Int) : Camera :=
  { c with viewW := w, viewH := h }

/-- Modelled from the spec: `Camera.SetBound`, which is not in `game.go`;
the spec says `setBound(left, right, top, bottom)` stores a movement bound. -/
def Camera.SetBound (c : Camera) (left right top bottom : Int) : Camera :=
  { c with bound := ⟨left, right, top, bottom⟩ }

/-- The fields of `gfx.RenderSystem` that `game.go` reads. -/
structure RenderSystem where
  MainCamera : Camera
  RenderList : List Render
  FeatureList : List Feature
deriving DecidableEq, Repr

/-- Modelled from the spec: `RenderSystem.RegisterRender`, which is not in
`game.go`; the spec says `registerRenderer(kind, renderer)` puts the renderer
on the list of registered renderers. -/
def RenderSystem.RegisterRender (rs : RenderSystem) (_t : Nat) (r : Render) :
    RenderSystem :=
  { rs with RenderList := rs.RenderList ++ [r] }

/-- Modelled from the spec: `Register` of a render feature, which is not in
`game.go`; the spec says `registerFeature(feature)` puts the feature on the
list of registered features. -/
def Feature.Register (f : Feature) (rs : RenderSystem) : RenderSystem :=
  { rs with FeatureList := rs.FeatureList ++ [f] }

/-- The UI system built by `gui.NewUISystem(meshRender)`. -/
structure UISystem where
  render : Render
deriving DecidableEq, Repr

inductive InputSystem where
  | mk
deriving DecidableEq, Repr

inductive ParticleSimulateSystem where
  | mk
deriving DecidableEq, Repr

inductive ScriptSystem where
  | mk
deriving DecidableEq, Repr

inductive AnimationSystem where
  | mk
deriving DecidableEq, Repr

/-- The field of `Stats` that `game.go` writes. -/
structure Stats where
  drawCall : Int
deriving DecidableEq, Repr

/-- The field of `FPS` that `game.go` reads. -/
structure FPS where
  fps : Float32Bits
deriving DecidableEq, Repr

/-- The `Game` struct (lines 45-58). The six subsystems are embedded
pointers: `none` is the nil pointer. `SceneManager` is embedded by value and
has no field that `game.go` reads. -/
structure Game where
  Options : Options
  Stats : Stats
  FPS : FPS
  DB : DB
  RenderSystem : Option RenderSystem
  UISystem : Option UISystem
  InputSystem : Option InputSystem
  ParticleSimulateSystem : Option ParticleSimulateSystem
  ScriptSystem : Option ScriptSystem
  AnimationSystem : Option AnimationSystem
deriving DecidableEq, Repr

/-! ## Calls to collaborators -/

/-- The subsystems that are handed the table collection. -/
inductive Consumer where
  | render | particle | script | animation
deriving DecidableEq, Repr

/-- Methods that `game.go` invokes through an embedded subsystem pointer,
with the arguments of the call. -/
inductive Method where
  | inputSetKeyEvent (key : Int) (pressed : Bool)
  | inputSetPointerEvent (key : Int) (pressed : Bool) (x y : Float32Bits)
  | inputFrame
  | inputReset
  | scriptUpdate (dt : Float32Bits)
  | animationUpdate (dt : Float32Bits)
  | particleUpdate (dt : Float32Bits)
  | renderUpdate (dt : Float32Bits)
  | renderDestroy
  | uiDraw (dt : Float32Bits)
deriving DecidableEq, Repr

/-- One call made by `game.go`. -/
inductive Event where
  | fpsInit
  | gfxInit (ratio : Float32Bits)
  | audioInit
  | newRenderSystem
  | requireTable (who : Consumer) (tables : List Table)
  | getShaderStr (name : ShaderName)
  | newRender (r : Render)
  | registerRender (t : Nat) (r : Render)
  | logLoadRender (n : Nat)
  | logRender (i : Nat) (r : Render)
  | featureRegister (f : Feature)
  | logLoadFeature (n : Nat)
  | logFeature (i : Nat) (f : Feature)
  | newUISystem (r : Render)
  | guiDefaultContext
  | uiRegisterContext
  | dbgInit (w h : Int)
  | newInputSystem
  | newSimulationSystem
  | newScriptSystem
  | newAnimationSystem
  | sceneSetup
  | audioDestroy
  | newEntityManager
  | newTable (t : Table)
  | setViewPort (w h : Int)
  | setBound (left right top bottom : Int)
  | guiSetScreenSize (w h : Int)
  | fpsSmooth
  | sceneUpdate (dt : Float32Bits)
  | printVerb
  | printDrawCall
  | printFPS (fps : Float32Bits)
  | dbgNextFrame
  | audioAdvanceFrame
  | gfxFlush
  /-- a method invoked on a live subsystem -/
  | call (m : Method)
  /-- a method invoked through a nil subsystem pointer -/
  | callOnNil (m : Method)
deriving DecidableEq, Repr

/-- A nil pointer dereference. -/
inductive Fault where
  /-- inside a method that was invoked on a nil receiver -/
  | nilReceiver (m : Method)
  /-- `game.go` reads a field of the nil `RenderSystem` -/
  | nilRenderSystem
deriving DecidableEq, Repr

/-- What the collaborators return, as a function of the calls made so far,
and whether a method survives a nil receiver. -/
structure Env where
  /-- fps field after `FPS.initialize()` -/
  fpsAtInit : List Event → Float32Bits
  /-- result of `FPS.Smooth()` and the fps field after it -/
  Smooth : List Event → Float32Bits × Float32Bits
  /-- result of `gfx.Flush()` -/
  Flush : List Event → Int
  /-- the render system built by `gfx.NewRenderSystem()` -/
  NewRenderSystem : List Event → RenderSystem
  /-- whether the method returns normally when its receiver is nil -/
  nilOK : Method → Bool

/-- The program state: the `Game`, the screen size held by the gui package,
the calls made so far, and the fault that stopped the program, if any. -/
structure State where
  g : Game
  screenSize : Int × Int
  trace : List Event
  halted : Option Fault
deriving DecidableEq, Repr

/-- A zero-valued `Game` with the given options; nothing has been called. -/
def fresh (opts : Options) : State :=
  { g := { Options := opts, Stats := ⟨0⟩, FPS := ⟨0⟩, DB := ⟨none, []⟩,
           RenderSystem := none, UISystem := none, InputSystem := none,
           ParticleSimulateSystem := none, ScriptSystem := none,
           AnimationSystem := none },
    screenSize := (0, 0), trace := [], halted := none }

/-! ## Primitive steps

Every step leaves a faulted state unchanged. -/

/-- Record a call. -/
def State.emit (s : State) (e : Event) : State :=
  if s.halted.isSome then s else { s with trace := s.trace ++ [e] }

/-- Record a call whose arguments are read from the `Game`. -/
def State.emitBy (s : State) (e : Game → Event) : State :=
  if s.halted.isSome then s else { s with trace := s.trace ++ [e s.g] }

/-- Record the calls of a loop whose range is read from the `Game`. -/
def State.emitAllBy (s : State) (es : Game → List Event) : State :=
  if s.halted.isSome then s else { s with trace := s.trace ++ es s.g }

/-- Record a call and continue with `k`, which is given the history up to
the call (the collaborator oracle turns it into the value returned). -/
def State.callThen (s : State) (e : Event) (k : List Event → State → State) :
    State :=
  if s.halted.isSome then s else k s.trace { s with trace := s.trace ++ [e] }

/-- Assign to fields of the `Game`. -/
def State.modify (s : State) (f : Game → Game) : State :=
  if s.halted.isSome then s else { s with g := f s.g }

/-- Mutate the render system through its pointer. -/
def State.withRS (s : State) (f : RenderSystem → RenderSystem) : State :=
  s.modify fun g => { g with RenderSystem := g.RenderSystem.map f }

/-- Stop with a fault. -/
def State.fault (s : State) (f : Fault) : State :=
  if s.halted.isSome then s else { s with halted := some f }

/-- Dereference the embedded `*gfx.RenderSystem` and continue with `k`;
a fault when the pointer is nil. -/
def State.readRS (s : State) (k : RenderSystem → State → State) : State :=
  match s.g.RenderSystem with
  | none => s.fault .nilRenderSystem
  | some rs => k rs s

/-- Invoke method `m` through a subsystem pointer; `live` tells whether the
pointer is non-nil. On a nil receiver the call is still made, and faults
unless the method tolerates a nil receiver. -/
def State.invoke (env : Env) (s : State) (live : Game → Bool) (m : Method) :
    State :=
  if s.halted.isSome then s
  else if live s.g then { s with trace := s.trace ++ [.call m] }
  else { s with trace := s.trace ++ [.callOnNil m],
                halted := if env.nilOK m then none else some (.nilReceiver m) }

/-- Store the screen size in the gui package. -/
def State.setScreenSize (s : State) (w h : Int) : State :=
  if s.halted.isSome then s else { s with screenSize := (w, h) }

/-- Append tables to `g.DB.Tables`. -/
def State.appendTables (s : State) (ts : List Table) : State :=
  s.modify fun g => { g with DB := { g.DB with Tables := g.DB.Tables ++ ts } }

/-! ## The operations of game.go -/

/-- Lines 90-99. `camera := &g.MainCamera` goes through the embedded
`*gfx.RenderSystem`, so it faults when that pointer is nil. -/
def setGameSize (w h : Int) (s : State) : State :=
  let min := -MaxFloat32
  let max := MaxFloat32
  -- camera := &g.MainCamera
  s.readRS fun _ s =>
    -- camera.SetViewPort(w, h)
    let s := s.emit (.setViewPort w h)
    let s := s.withRS fun rs =>
      { rs with MainCamera := rs.MainCamera.SetViewPort w h }
    -- camera.SetBound(min, max, max, min)
    let s := s.emit (.setBound min max max min)
    let s := s.withRS fun rs =>
      { rs with MainCamera := rs.MainCamera.SetBound min max max min }
    -- gui.SetScreenSize(w, h)
    let s := s.emit (.guiSetScreenSize w h)
    s.setScreenSize w h

/-- Lines 86-88: `g.setGameSize(float32(w), float32(h))`, `w` and `h` int32. -/
def OnResize (w h : Int) (s : State) : State :=
  setGameSize (float32OfInt w) (float32OfInt h) s

/-- Lines 78-80. -/
def OnKeyEvent (env : Env) (key : Int) (pressed : Bool) (s : State) : State :=
  s.invoke env (·.InputSystem.isSome) (.inputSetKeyEvent key pressed)

/-- Lines 82-84. -/
def OnPointEvent (env : Env) (key : Int) (pressed : Bool) (x y : Float32Bits)
    (s : State) : State :=
  s.invoke env (·.InputSystem.isSome) (.inputSetPointerEvent key pressed x y)

/-- The calls of `for i, v := range list { log.Println(i, ..., v) }`. -/
def logEach {α : Type} (mk : Nat → α → Event) (xs : List α) : List Event :=
  xs.enum.map fun p => mk p.1 p.2

/-- The list `rs.RenderList`, read through the render system pointer. -/
def Game.renders (g : Game) : List Render :=
  (g.RenderSystem.map (·.RenderList)).getD []

/-- The list `rs.FeatureList`, read through the render system pointer. -/
def Game.features (g : Game) : List Feature :=
  (g.RenderSystem.map (·.FeatureList)).getD []

/-- Lines 102-172. -/
def Create (env : Env) (ratio : Float32Bits) (s : State) : State :=
  -- g.FPS.initialize()
  s.callThen .fpsInit fun tr s =>
  let s := s.modify fun g => { g with FPS := ⟨env.fpsAtInit tr⟩ }
  let s := s.emit (.gfxInit ratio)
  let s := s.emit .audioInit
  -- render system: rs := gfx.NewRenderSystem(); g.RenderSystem = rs
  s.callThen .newRenderSystem fun tr s =>
  let s := s.modify fun g =>
    { g with RenderSystem := some (env.NewRenderSystem tr) }
  -- set table
  let s := s.emitBy fun g => .requireTable .render g.DB.Tables
  -- set render
  let batchRender := Render.batchRender .batch
  let meshRender := Render.meshRender .mesh
  let s := s.emit (.getShaderStr .batch)
  let s := s.emit (.newRender batchRender)
  let s := s.emit (.registerRender 0 batchRender)
  let s := s.withRS fun rs => rs.RegisterRender 0 batchRender
  let s := s.emit (.getShaderStr .mesh)
  let s := s.emit (.newRender meshRender)
  let s := s.emit (.registerRender 1 meshRender)
  let s := s.withRS fun rs => rs.RegisterRender 1 meshRender
  let s := s.emitBy fun g => .logLoadRender g.renders.length
  let s := s.emitAllBy fun g => logEach .logRender g.renders
  -- set feature
  let s := s.emit (.featureRegister .sprite)
  let s := s.withRS Feature.sprite.Register
  let s := s.emit (.featureRegister .mesh)
  let s := s.withRS Feature.mesh.Register
  let s := s.emit (.featureRegister .text)
  let s := s.withRS Feature.text.Register
  let s := s.emitBy fun g => .logLoadFeature g.features.length
  let s := s.emitAllBy fun g => logEach .logFeature g.features
  -- gui system
  let s := s.emit (.newUISystem meshRender)
  let s := s.modify fun g => { g with UISystem := some ⟨meshRender⟩ }
  let s := s.emit .guiDefaultContext
  let s := s.emit .uiRegisterContext
  -- init debug
  let s := s.emitBy fun g => .dbgInit g.Options.W g.Options.H
  -- input system
  let s := s.emit .newInputSystem
  let s := s.modify fun g => { g with InputSystem := some .mk }
  -- particle-simulation system
  let s := s.emit .newSimulationSystem
  let s := s.emitBy fun g => .requireTable .particle g.DB.Tables
  let s := s.modify fun g => { g with ParticleSimulateSystem := some .mk }
  -- set feature
  let s := s.emit (.featureRegister .particle)
  let s := s.withRS Feature.particle.Register
  -- script system
  let s := s.emit .newScriptSystem
  let s := s.modify fun g => { g with ScriptSystem := some .mk }
  let s := s.emitBy fun g => .requireTable .script g.DB.Tables
  -- Tex2D animation system
  let s := s.emit .newAnimationSystem
  let s := s.modify fun g => { g with AnimationSystem := some .mk }
  let s := s.emitBy fun g => .requireTable .animation g.DB.Tables
  -- setup scene manager
  s.emit .sceneSetup

/-- Lines 175-178. -/
def Destroy (env : Env) (s : State) : State :=
  let s := s.invoke env (·.RenderSystem.isSome) .renderDestroy
  s.emit .audioDestroy

/-- Lines 184-202. -/
def loadTables (s : State) : State :=
  let s := s.emit .newEntityManager
  let s := s.modify fun g => { g with DB := { g.DB with EntityM := some .mk } }
  -- init tables
  let scriptTable := NewScriptTable MaxScriptSize
  let tagTable := TagTable
  let s := s.emit (.newTable scriptTable)
  let s := s.appendTables [scriptTable, tagTable]
  let spriteTable := NewSpriteTable MaxSpriteSize
  let meshTable := NewMeshTable MaxMeshSize
  let xfTable := NewTransformTable MaxTransformSize
  let textTable := NewTextTable MaxTextSize
  let s := s.emit (.newTable spriteTable)
  let s := s.emit (.newTable meshTable)
  let s := s.emit (.newTable xfTable)
  let s := s.emit (.newTable textTable)
  let s := s.appendTables [spriteTable, meshTable, xfTable, textTable]
  let psTable := NewParticleSystemTable MaxParticleSize
  let s := s.emit (.newTable psTable)
  s.appendTables [psTable]

/-- Lines 180-182. -/
def Init (s : State) : State := loadTables s

/-- Lines 255-267. -/
def DrawProfile (s : State) : State :=
  -- print info
  let s := s.emit .printVerb
  -- show drawCall
  let s := s.emit .printDrawCall
  let s := s.emitBy fun g => .printFPS g.FPS.fps
  -- Advance frame
  s.emit .dbgNextFrame

/-- Lines 208-253. -/
def Update (env : Env) (s : State) : State :=
  -- dt := g.FPS.Smooth()
  s.callThen .fpsSmooth fun tr s =>
  let dt := (env.Smooth tr).1
  let s := s.modify fun g => { g with FPS := ⟨(env.Smooth tr).2⟩ }
  -- update input-system
  let s := s.invoke env (·.InputSystem.isSome) .inputFrame
  -- update scene
  let s := s.emit (.sceneUpdate dt)
  -- update script
  let s := s.invoke env (·.ScriptSystem.isSome) (.scriptUpdate dt)
  let s := s.invoke env (·.InputSystem.isSome) .inputReset
  -- update sprite animation
  let s := s.invoke env (·.AnimationSystem.isSome) (.animationUpdate dt)
  let s := s.invoke env (·.ParticleSimulateSystem.isSome) (.particleUpdate dt)
  -- Render
  let s := s.invoke env (·.RenderSystem.isSome) (.renderUpdate dt)
  -- GUI
  let s := s.invoke env (·.UISystem.isSome) (.uiDraw dt)
  -- fps & profile
  let s := DrawProfile s
  let s := s.emit .audioAdvanceFrame
  -- flush drawCall: num := gfx.Flush()
  s.callThen .gfxFlush fun tr s =>
  let num := wrapInt (env.Flush tr)
  -- drawCall = all-drawCall - camera-drawCall
  s.readRS fun rs s =>
    s.modify fun g =>
      { g with Stats := ⟨wrapInt (num - (rs.RenderList.length : Int))⟩ }

/-- Lines 65-67. -/
def OnCreate (env : Env) (ratio : Float32Bits) (s : State) : State :=
  Create env ratio s

/-- Lines 69-71. -/
def OnLoop (env : Env) (s : State) : State := Update env s

/-- Lines 73-75. -/
def OnDestroy (env : Env) (s : State) : State := Destroy env s

/-! ## Sequences of public operations -/

/-- The public operations of `Game`. -/
inductive Op where
  | Init
  | Create (ratio : Float32Bits)
  | Update
  | OnResize (w h : Int)
  | OnKeyEvent (key : Int) (pressed : Bool)
  | OnPointEvent (key : Int) (pressed : Bool) (x y : Float32Bits)
  | Destroy
deriving DecidableEq, Repr

/-- Whether the operation is `Init`. -/
def Op.isInit : Op → Bool
  | .Init => true
  | _ => false

/-- One public operation. -/
def step (env : Env) (op : Op) (s : State) : State :=
  match op with
  | .Init => Init s
  | .Create ratio => Create env ratio s
  | .Update => Update env s
  | .OnResize w h => OnResize w h s
  | .OnKeyEvent key pressed => OnKeyEvent env key pressed s
  | .OnPointEvent key pressed x y => OnPointEvent env key pressed x y s
  | .Destroy => Destroy env s

/-- A sequence of public operations, first to last. -/
def run (env : Env) (ops : List Op) (s : State) : State :=
  ops.foldl (fun s op => step env op s) s

/-- A sequence of `OnResize` calls, first to last. -/
def resizeAll (calls : List (Int × Int)) (s : State) : State :=
  calls.foldl (fun s c => OnResize c.1 c.2 s) s

/-- `n` consecutive frames. -/
def frames (env : Env) : Nat → State → State
  | 0, s => s
  | n + 1, s => frames env n (Update env s)

/-- `Create` has run: the six subsystem pointers are set and the program has
not faulted. -/
def Created (s : State) : Prop :=
  s.g.RenderSystem.isSome = true ∧ s.g.UISystem.isSome = true ∧
  s.g.InputSystem.isSome = true ∧ s.g.ParticleSimulateSystem.isSome = true ∧
  s.g.ScriptSystem.isSome = true ∧ s.g.AnimationSystem.isSome = true ∧
  s.halted = none

instance (s : State) : Decidable (Created s) := by
  unfold Created; infer_instance

/-- The camera of the game, `func (g *Game) Camera()` (lines 60-62);
`none` when the render system pointer is nil. -/
def Game.Camera (g : Game) : Option Camera := g.RenderSystem.map (·.MainCamera)

/-- The viewport held by the main camera. -/
def State.viewport (s : State) : Option (Int × Int) :=
  s.g.Camera.map fun c => (c.viewW, c.viewH)

/-- The movement bound held by the main camera. -/
def State.bound (s : State) : Option Bound := s.g.Camera.map (·.bound)

/-- The bound that leaves the camera unconstrained. -/
def unbounded : Bound := ⟨-MaxFloat32, MaxFloat32, MaxFloat32, -MaxFloat32⟩

/-- The frame pipeline in the order the specification lists it, for the
delta time `dt` returned by `Smooth` and the fps value `fps` it leaves. -/
def pipelineOrder (dt fps : Float32Bits) : List Event :=
  [.fpsSmooth, .call .inputFrame, .sceneUpdate dt, .call (.scriptUpdate dt),
   .call .inputReset, .call (.animationUpdate dt), .call (.particleUpdate dt),
   .call (.renderUpdate dt), .call (.uiDraw dt),
   .printVerb, .printDrawCall, .printFPS fps, .dbgNextFrame,
   .audioAdvanceFrame, .gfxFlush]

/-- A sample of collaborators with constant results: `Smooth` returns the
delta time coded 16 and leaves the fps value coded 60, every flush submits
10 draw calls, `NewRenderSystem` returns a zero-valued render system, and
every method faults on a nil receiver. -/
def sampleEnv : Env :=
  { fpsAtInit := fun _ => 0
    Smooth := fun _ => (16, 60)
    Flush := fun _ => 10
    NewRenderSystem := fun _ => ⟨⟨0, 0, ⟨0, 0, 0, 0⟩⟩, [], []⟩
    nilOK := fun _ => false }

/-- The calls made by one `Create`, for the ratio, the tables and options
of the game, and the render system `rs0` that `gfx.NewRenderSystem`
returned. -/
def createCalls (ratio : Float32Bits) (tables : List Table) (opts : Options)
    (rs0 : RenderSystem) : List Event :=
  [.fpsInit, .gfxInit ratio, .audioInit, .newRenderSystem,
   .requireTable .render tables,
   .getShaderStr .batch, .newRender (.batchRender .batch),
   .registerRender 0 (.batchRender .batch),
   .getShaderStr .mesh, .newRender (.meshRender .mesh),
   .registerRender 1 (.meshRender .mesh),
   .logLoadRender (rs0.RenderList.length + 2)] ++
  logEach .logRender (rs0.RenderList ++ [.batchRender .batch, .meshRender .mesh]) ++
  [.featureRegister .sprite, .featureRegister .mesh, .featureRegister .text,
   .logLoadFeature (rs0.FeatureList.length + 3)] ++
  logEach .logFeature (rs0.FeatureList ++ [.sprite, .mesh, .text]) ++
  [.newUISystem (.meshRender .mesh), .guiDefaultContext, .uiRegisterContext,
   .dbgInit opts.W opts.H, .newInputSystem, .newSimulationSystem,
   .requireTable .particle tables, .featureRegister .particle,
   .newScriptSystem, .requireTable .script tables,
   .newAnimationSystem, .requireTable .animation tables, .sceneSetup]

/-- Whether the call hands the table collection to a subsystem. -/
def Event.isRequireTable : Event → Bool
  | .requireTable _ _ => true
  | _ => false

/-- Whether the call sets the camera viewport, the camera bound or the UI
screen size. -/
def Event.setsSize : Event → Bool
  | .setViewPort _ _ => true
  | .setBound _ _ _ _ => true
  | .guiSetScreenSize _ _ => true
  | _ => false

/-- The tables appended by one `loadTables`, in order. -/
def sevenTables : List Table :=
  [NewScriptTable MaxScriptSize, TagTable, NewSpriteTable MaxSpriteSize,
   NewMeshTable MaxMeshSize, NewTransformTable MaxTransformSize,
   NewTextTable MaxTextSize, NewParticleSystemTable MaxParticleSize]

/-- The calls of consecutive frames on a created game, given the delta
time and fps value of each frame. -/
def framesCalls : List (Float32Bits × Float32Bits) → List Event
  | [] => []
  | r :: rest => pipelineOrder r.1 r.2 ++ framesCalls rest

/-- Whether the call is a stage of the input protocol of a frame: the latch
`InputSystem.Frame`, the consumers `SceneManager.Update` and
`ScriptSystem.Update`, or `InputSystem.Reset` (on a live or a nil
receiver). -/
def Event.isInputStage : Event → Bool
  | .call .inputFrame => true
  | .call .inputReset => true
  | .call (.scriptUpdate _) => true
  | .callOnNil .inputFrame => true
  | .callOnNil .inputReset => true
  | .callOnNil (.scriptUpdate _) => true
  | .sceneUpdate _ => true
  | _ => false

/-- The input protocol the specification asks of consecutive frames: in each
frame the latch, then the scene and the script update, then the reset. -/
def latchUpdateReset : List Float32Bits → List Event
  | [] => []
  | dt :: rest =>
    [.call .inputFrame, .sceneUpdate dt, .call (.scriptUpdate dt),
     .call .inputReset] ++ latchUpdateReset rest

/-- Collaborators like `sampleEnv`, except that every method returns
normally on a nil receiver. -/
def tolerantEnv : Env := { sampleEnv with nilOK := fun _ => true }

/-- The trace of `s` starts with `base`. -/
def TraceExtends (base : List Event) (s : State) : Prop :=
  ∃ rest, s.trace = base ++ rest

/-- A game set up the way the specification sets it up for its scenarios:
`Init`, `Create`, `OnResize(800, 600)` on a game configured 800 x 600, with
the sample collaborators. -/
def sampleGame : State :=
  run sampleEnv [.Init, .Create 1, .OnResize 800 600] (fresh ⟨800, 600⟩)

/-! ## Basic facts about the primitive steps -/

theorem wrapInt_of_range (x : Int) (h1 : -2 ^ 63 ≤ x) (h2 : x < 2 ^ 63) :
    wrapInt x = x := by
  unfold wrapInt
  norm_num at h1 h2 ⊢
  omega

theorem Update_of_created (env : Env) (s : State) (rs : RenderSystem)
    (h : Created s) (hrs : s.g.RenderSystem = some rs) :
    Update env s =
      { s with
        g := { s.g with
          FPS := ⟨(env.Smooth s.trace).2⟩
          Stats := ⟨wrapInt (wrapInt (env.Flush (s.trace ++
            (pipelineOrder (env.Smooth s.trace).1 (env.Smooth s.trace).2).dropLast))
              - (rs.RenderList.length : Int))⟩ }
        trace := s.trace ++
          pipelineOrder (env.Smooth s.trace).1 (env.Smooth s.trace).2 } := by
  obtain ⟨g, sc, tr, hl⟩ := s
  obtain ⟨h1, h2, h3, h4, h5, h6, h7⟩ := h
  simp only at h1 h2 h3 h4 h5 h6 h7 hrs
  subst h7
  simp [Update, DrawProfile, State.emit, State.emitBy, State.callThen, State.invoke,
    State.modify, State.readRS, State.fault, pipelineOrder, h1, h2, h3, h4, h5, h6, hrs]

theorem Created_Update (env : Env) (s : State) (h : Created s) :
    Created (Update env s) := by
  have h1 := h.1
  obtain ⟨rs, hrs⟩ := Option.isSome_iff_exists.mp h1
  rw [Update_of_created env s rs h hrs]
  obtain ⟨_, h2, h3, h4, h5, h6, h7⟩ := h
  exact ⟨by simpa using h1, h2, h3, h4, h5, h6, h7⟩

theorem Create_of_running (env : Env) (ratio : Float32Bits) (s : State)
    (h : s.halted = none) :
    Create env ratio s =
      { g := { s.g with
          FPS := ⟨env.fpsAtInit s.trace⟩
          RenderSystem := some
            { MainCamera :=
                (env.NewRenderSystem
                  (s.trace ++ [.fpsInit, .gfxInit ratio, .audioInit])).MainCamera
              RenderList :=
                (env.NewRenderSystem
                  (s.trace ++ [.fpsInit, .gfxInit ratio, .audioInit])).RenderList
                  ++ [.batchRender .batch, .meshRender .mesh]
              FeatureList :=
                (env.NewRenderSystem
                  (s.trace ++ [.fpsInit, .gfxInit ratio, .audioInit])).FeatureList
                  ++ [.sprite, .mesh, .text, .particle] }
          UISystem := some ⟨.meshRender .mesh⟩
          InputSystem := some .mk
          ParticleSimulateSystem := some .mk
          ScriptSystem := some .mk
          AnimationSystem := some .mk }
        screenSize := s.screenSize
        trace := s.trace ++ createCalls ratio s.g.DB.Tables s.g.Options
          (env.NewRenderSystem (s.trace ++ [.fpsInit, .gfxInit ratio, .audioInit]))
        halted := none } := by
  obtain ⟨g, sc, tr, hl⟩ := s
  simp only at h
  subst h
  simp [Create, State.emit, State.emitBy, State.emitAllBy, State.callThen,
    State.modify, State.withRS, createCalls, RenderSystem.RegisterRender,
    Feature.Register, Game.renders, Game.features]

theorem Created_Create (env : Env) (ratio : Float32Bits) (s : State)
    (h : s.halted = none) : Created (Create env ratio s) := by
  rw [Create_of_running env ratio s h]
  simp [Created]

theorem OnResize_of_live (w h : Int) (s : State) (rs : RenderSystem)
    (hrun : s.halted = none) (hrs : s.g.RenderSystem = some rs) :
    OnResize w h s =
      { s with
        g := { s.g with
          RenderSystem := some
            { rs with
              MainCamera :=
                ⟨float32OfInt w, float32OfInt h,
                 ⟨-MaxFloat32, MaxFloat32, MaxFloat32, -MaxFloat32⟩⟩ } }
        screenSize := (float32OfInt w, float32OfInt h)
        trace := s.trace ++
          [.setViewPort (float32OfInt w) (float32OfInt h),
           .setBound (-MaxFloat32) MaxFloat32 MaxFloat32 (-MaxFloat32),
           .guiSetScreenSize (float32OfInt w) (float32OfInt h)] } := by
  obtain ⟨g, sc, tr, hl⟩ := s
  simp only at hrun hrs
  subst hrun
  simp [OnResize, setGameSize, State.readRS, State.emit, State.modify,
    State.withRS, State.setScreenSize, Camera.SetViewPort, Camera.SetBound, hrs]

theorem live_OnResize (w h : Int) (s : State) (hrun : s.halted = none)
    (hrs : s.g.RenderSystem.isSome = true) :
    (OnResize w h s).halted = none ∧
    (OnResize w h s).g.RenderSystem.isSome = true := by
  obtain ⟨rs, hrs⟩ := Option.isSome_iff_exists.mp hrs
  rw [OnResize_of_live w h s rs hrun hrs]
  exact ⟨hrun, rfl⟩

theorem live_resizeAll (calls : List (Int × Int)) (s : State)
    (hrun : s.halted = none) (hrs : s.g.RenderSystem.isSome = true) :
    (resizeAll calls s).halted = none ∧
    (resizeAll calls s).g.RenderSystem.isSome = true := by
  induction calls generalizing s with
  | nil => exact ⟨hrun, hrs⟩
  | cons c rest ih =>
    have hl := live_OnResize c.1 c.2 s hrun hrs
    exact ih (OnResize c.1 c.2 s) hl.1 hl.2

theorem resizeAll_last (calls : List (Int × Int)) (hne : calls ≠ [])
    (s : State) :
    resizeAll calls s =
      OnResize (calls.getLast hne).1 (calls.getLast hne).2
        (resizeAll calls.dropLast s) := by
  conv_lhs => rw [← List.dropLast_append_getLast hne]
  simp [resizeAll, List.foldl_append]

theorem roundToFloat32_exact (n : Nat) (h : n ≤ 2 ^ 24) :
    roundToFloat32 n = n := by
  rcases Nat.lt_or_ge n (2 ^ 24) with h1 | h1
  · unfold roundToFloat32
    rw [if_pos h1]
  · have h2 : n = 2 ^ 24 := le_antisymm h h1
    subst h2
    decide

theorem float32OfInt_exact (w : Int) (h : |w| ≤ 2 ^ 24) :
    float32OfInt w = w := by
  have hb := abs_le.mp h
  have hn : w.natAbs ≤ 2 ^ 24 := by
    have : ((w.natAbs : Nat) : Int) ≤ 2 ^ 24 := by
      rw [Int.natCast_natAbs]; exact h
    exact_mod_cast this
  unfold float32OfInt
  rw [roundToFloat32_exact _ hn]
  split
  · rename_i hneg
    rw [Int.ofNat_natAbs_of_nonpos (le_of_lt hneg)]
    simp
  · rename_i hpos
    exact Int.natAbs_of_nonneg (not_lt.mp hpos)

theorem Init_of_running (s : State) (h : s.halted = none) :
    Init s =
      { s with
        g := { s.g with DB := ⟨some .mk, s.g.DB.Tables ++ sevenTables⟩ }
        trace := s.trace ++
          [.newEntityManager, .newTable (NewScriptTable MaxScriptSize),
           .newTable (NewSpriteTable MaxSpriteSize),
           .newTable (NewMeshTable MaxMeshSize),
           .newTable (NewTransformTable MaxTransformSize),
           .newTable (NewTextTable MaxTextSize),
           .newTable (NewParticleSystemTable MaxParticleSize)] } := by
  obtain ⟨g, sc, tr, hl⟩ := s
  simp only at h
  subst h
  simp [Init, loadTables, State.emit, State.modify, State.appendTables,
    sevenTables]

theorem filter_logEach_eq_nil {α : Type} (mk : Nat → α → Event)
    (p : Event → Bool) (xs : List α) (h : ∀ i x, p (mk i x) = false) :
    (logEach mk xs).filter p = [] := by
  rw [List.filter_eq_nil_iff]
  intro e he
  simp only [logEach, List.mem_map] at he
  obtain ⟨q, _, rfl⟩ := he
  simp [h]

theorem frames_trace (env : Env) (n : Nat) (s : State) (h : Created s) :
    ∃ rs : List (Float32Bits × Float32Bits), rs.length = n ∧
      (frames env n s).trace = s.trace ++ framesCalls rs ∧
      Created (frames env n s) := by
  induction n generalizing s with
  | zero => exact ⟨[], rfl, by simp [frames, framesCalls], h⟩
  | succ n ih =>
    obtain ⟨rs, hlen, htr, hc⟩ := ih (Update env s) (Created_Update env s h)
    obtain ⟨r0, hr0⟩ := Option.isSome_iff_exists.mp h.1
    refine ⟨env.Smooth s.trace :: rs, by simp [hlen], ?_, hc⟩
    show (frames env n (Update env s)).trace = _
    rw [htr, Update_of_created env s r0 h hr0]
    simp [framesCalls, List.append_assoc]

theorem filter_framesCalls (rs : List (Float32Bits × Float32Bits)) :
    (framesCalls rs).filter Event.isInputStage =
      latchUpdateReset (rs.map (·.1)) := by
  induction rs with
  | nil => rfl
  | cons r rest ih =>
    simp only [framesCalls, List.filter_append, ih, List.map_cons,
      latchUpdateReset]
    rfl

/-! ### Steps keep the table registry -/

theorem emit_g (s : State) (e : Event) : (s.emit e).g = s.g := by
  unfold State.emit; split <;> rfl

theorem emitBy_g (s : State) (e : Game → Event) : (s.emitBy e).g = s.g := by
  unfold State.emitBy; split <;> rfl

theorem emitAllBy_g (s : State) (es : Game → List Event) :
    (s.emitAllBy es).g = s.g := by
  unfold State.emitAllBy; split <;> rfl

theorem fault_g (s : State) (f : Fault) : (s.fault f).g = s.g := by
  unfold State.fault; split <;> rfl

theorem setScreenSize_g (s : State) (w h : Int) :
    (s.setScreenSize w h).g = s.g := by
  unfold State.setScreenSize; split <;> rfl

theorem invoke_g (env : Env) (s : State) (live : Game → Bool) (m : Method) :
    (s.invoke env live m).g = s.g := by
  unfold State.invoke; split
  · rfl
  · split <;> rfl

theorem modify_DB (s : State) (f : Game → Game) (hf : ∀ g, (f g).DB = g.DB) :
    (s.modify f).g.DB = s.g.DB := by
  unfold State.modify; split
  · rfl
  · exact hf s.g

theorem withRS_DB (s : State) (f : RenderSystem → RenderSystem) :
    (s.withRS f).g.DB = s.g.DB :=
  modify_DB s _ (fun _ => rfl)

theorem callThen_DB (s : State) (e : Event) (k : List Event → State → State)
    (hk : ∀ tr t, (k tr t).g.DB = t.g.DB) : (s.callThen e k).g.DB = s.g.DB := by
  unfold State.callThen; split
  · rfl
  · rw [hk]

theorem readRS_DB (s : State) (k : RenderSystem → State → State)
    (hk : ∀ rs t, (k rs t).g.DB = t.g.DB) : (s.readRS k).g.DB = s.g.DB := by
  unfold State.readRS; split
  · rw [fault_g]
  · rw [hk]

theorem Update_DB (env : Env) (s : State) : (Update env s).g.DB = s.g.DB := by
  unfold Update
  apply callThen_DB
  intro tr t
  simp only []
  refine Eq.trans (callThen_DB _ _ _ ?_) ?_
  · intro tr2 t2
    exact readRS_DB _ _ (fun rs t3 => modify_DB _ _ (fun _ => rfl))
  · simp only [DrawProfile, emit_g, emitBy_g, invoke_g]
    exact modify_DB _ _ (fun _ => rfl)

theorem Create_DB (env : Env) (ratio : Float32Bits) (s : State) :
    (Create env ratio s).g.DB = s.g.DB := by
  cases hh : s.halted with
  | none => rw [Create_of_running env ratio s hh]
  | some f => simp [Create, State.callThen, hh]

theorem OnResize_DB (w h : Int) (s : State) : (OnResize w h s).g.DB = s.g.DB := by
  unfold OnResize setGameSize
  apply readRS_DB
  intro rs t
  simp only [setScreenSize_g, emit_g]
  rw [withRS_DB]
  simp only [emit_g]
  rw [withRS_DB]
  simp only [emit_g]

theorem step_Tables (env : Env) (op : Op) (s : State) (h : op.isInit = false) :
    (step env op s).g.DB.Tables = s.g.DB.Tables := by
  cases op with
  | Init => simp [Op.isInit] at h
  | Create ratio => simp only [step, Create_DB]
  | Update => simp only [step, Update_DB]
  | OnResize w h => simp only [step, OnResize_DB]
  | OnKeyEvent key pressed => simp only [step, OnKeyEvent, invoke_g]
  | OnPointEvent key pressed x y => simp only [step, OnPointEvent, invoke_g]
  | Destroy => simp only [step, Destroy, emit_g, invoke_g]

theorem Init_Tables (s : State) :
    (Init s).g.DB.Tables = s.g.DB.Tables ∨
    (Init s).g.DB.Tables = s.g.DB.Tables ++ sevenTables := by
  cases hh : s.halted with
  | none => right; rw [Init_of_running s hh]
  | some f =>
    left
    simp [Init, loadTables, State.emit, State.modify, State.appendTables, hh]

theorem run_Tables_of_no_Init (env : Env) (ops : List Op) (s : State)
    (h : ops.countP Op.isInit = 0) :
    (run env ops s).g.DB.Tables = s.g.DB.Tables := by
  induction ops generalizing s with
  | nil => rfl
  | cons op rest ih =>
    rw [List.countP_cons] at h
    have hop : op.isInit = false := by
      cases hb : op.isInit with
      | false => rfl
      | true => simp [hb] at h
    have hrest : rest.countP Op.isInit = 0 := by omega
    show (run env rest (step env op s)).g.DB.Tables = _
    rw [ih (step env op s) hrest, step_Tables env op s hop]

theorem run_Tables_of_one_Init (env : Env) (ops : List Op) (s : State)
    (h : ops.countP Op.isInit ≤ 1) :
    (run env ops s).g.DB.Tables = s.g.DB.Tables ∨
    (run env ops s).g.DB.Tables = s.g.DB.Tables ++ sevenTables := by
  induction ops generalizing s with
  | nil => left; rfl
  | cons op rest ih =>
    rw [List.countP_cons] at h
    show (run env rest (step env op s)).g.DB.Tables = _ ∨
      (run env rest (step env op s)).g.DB.Tables = _
    cases hb : op.isInit with
    | false =>
      simp only [hb] at h
      have hrest : rest.countP Op.isInit ≤ 1 := by simpa using h
      rw [← step_Tables env op s hb]
      exact ih (step env op s) hrest
    | true =>
      simp only [hb] at h
      have hrest : rest.countP Op.isInit = 0 := by simpa using h
      rw [run_Tables_of_no_Init env rest _ hrest]
      cases op with
      | Init => exact Init_Tables s
      | _ => simp [Op.isInit] at hb

/-! ### Steps only append to the trace -/

theorem ext_emit (b : List Event) (s : State) (e : Event)
    (h : TraceExtends b s) : TraceExtends b (s.emit e) := by
  unfold State.emit; split
  · exact h
  · obtain ⟨r, hr⟩ := h
    exact ⟨r ++ [e], by simp [hr]⟩

theorem ext_emitBy (b : List Event) (s : State) (e : Game → Event)
    (h : TraceExtends b s) : TraceExtends b (s.emitBy e) := by
  unfold State.emitBy; split
  · exact h
  · obtain ⟨r, hr⟩ := h
    exact ⟨r ++ [e s.g], by simp [hr]⟩

theorem ext_invoke (b : List Event) (env : Env) (s : State)
    (live : Game → Bool) (m : Method) (h : TraceExtends b s) :
    TraceExtends b (s.invoke env live m) := by
  obtain ⟨r, hr⟩ := h
  unfold State.invoke; split
  · exact ⟨r, hr⟩
  · split
    · exact ⟨r ++ [.call m], by simp [hr]⟩
    · exact ⟨r ++ [.callOnNil m], by simp [hr]⟩

theorem ext_modify (b : List Event) (s : State) (f : Game → Game)
    (h : TraceExtends b s) : TraceExtends b (s.modify f) := by
  unfold State.modify; split
  · exact h
  · exact h

theorem ext_fault (b : List Event) (s : State) (f : Fault)
    (h : TraceExtends b s) : TraceExtends b (s.fault f) := by
  unfold State.fault; split
  · exact h
  · exact h

theorem ext_readRS (b : List Event) (s : State)
    (k : RenderSystem → State → State)
    (hk : ∀ rs t, TraceExtends b t → TraceExtends b (k rs t))
    (h : TraceExtends b s) : TraceExtends b (s.readRS k) := by
  unfold State.readRS; split
  · exact ext_fault b s _ h
  · exact hk _ _ h

theorem ext_callThen (b : List Event) (s : State) (e : Event)
    (k : List Event → State → State)
    (hk : ∀ tr t, TraceExtends b t → TraceExtends b (k tr t))
    (h : TraceExtends b s) : TraceExtends b (s.callThen e k) := by
  unfold State.callThen; split
  · exact h
  · apply hk
    obtain ⟨r, hr⟩ := h
    exact ⟨r ++ [e], by simp [hr]⟩

theorem callThen_of_running (s : State) (e : Event)
    (k : List Event → State → State) (h : s.halted = none) :
    s.callThen e k = k s.trace { s with trace := s.trace ++ [e] } := by
  simp [State.callThen, h]

theorem modify_RenderSystem (s : State) (f : Game → Game)
    (hf : ∀ g, (f g).RenderSystem = g.RenderSystem) :
    (s.modify f).g.RenderSystem = s.g.RenderSystem := by
  unfold State.modify; split
  · rfl
  · exact hf s.g

theorem callThen_readRS_halts (s : State) (e : Event)
    (k : List Event → RenderSystem → State → State)
    (h : s.g.RenderSystem = none) :
    (s.callThen e fun tr t => t.readRS (k tr)).halted.isSome = true := by
  unfold State.callThen; split
  · assumption
  · rename_i hh
    simp [State.readRS, h, State.fault, hh]

/-! ## The frame pipeline -/

/-- C1: on a game on which `Create` has run, one `Update` makes exactly these
calls, once each and in this order: `FPS.Smooth` (returning `dt`),
`InputSystem.Frame`, `SceneManager.Update(dt)`, `ScriptSystem.Update(dt)`,
`InputSystem.Reset`, `AnimationSystem.Update(dt)`,
`ParticleSimulateSystem.Update(dt)`, `RenderSystem.Update(dt)`,
`UISystem.Draw(dt)`, `printVerb`, `printDrawCall`, `printFPS`,
`dbg.NextFrame`, `audio.AdvanceFrame`, `gfx.Flush`; every stage that takes a
delta time gets the `dt` of this frame, and the frame ends without a fault. -/
theorem update_pipeline_order (env : Env) (s : State) (dt fps : Float32Bits)
    (h : Created s) (hdt : env.Smooth s.trace = (dt, fps)) :
    (Update env s).trace = s.trace ++
      [.fpsSmooth, .call .inputFrame, .sceneUpdate dt, .call (.scriptUpdate dt),
       .call .inputReset, .call (.animationUpdate dt),
       .call (.particleUpdate dt), .call (.renderUpdate dt),
       .call (.uiDraw dt), .printVerb, .printDrawCall, .printFPS fps,
       .dbgNextFrame, .audioAdvanceFrame, .gfxFlush] ∧
    (Update env s).halted = none := by
  obtain ⟨rs, hrs⟩ := Option.isSome_iff_exists.mp h.1
  rw [Update_of_created env s rs h hrs, hdt]
  exact ⟨rfl, h.2.2.2.2.2.2⟩

theorem update_pipeline_order_witness :
    Created sampleGame ∧
    (Update sampleEnv sampleGame).trace = sampleGame.trace ++
      [.fpsSmooth, .call .inputFrame, .sceneUpdate 16, .call (.scriptUpdate 16),
       .call .inputReset, .call (.animationUpdate 16),
       .call (.particleUpdate 16), .call (.renderUpdate 16),
       .call (.uiDraw 16), .printVerb, .printDrawCall, .printFPS 60,
       .dbgNextFrame, .audioAdvanceFrame, .gfxFlush] :=
  ⟨by decide, (update_pipeline_order sampleEnv sampleGame 16 60 (by decide) rfl).1⟩

/-- C2: on a game on which `Create` has run, whatever non-negative count
`num` the device flush returns, after `Update` the frame stat `drawCall`
equals `num` minus the number of entries registered on the `RenderList` of
the render subsystem (the per-camera passes). The flush sees the history up
to, and excluding, its own call. -/
theorem drawCall_accounting (env : Env) (s : State) (rs : RenderSystem)
    (num : Int) (h : Created s) (hrs : s.g.RenderSystem = some rs)
    (hlen : (rs.RenderList.length : Int) < 2 ^ 63)
    (hflush : env.Flush (Update env s).trace.dropLast = num)
    (h0 : 0 ≤ num) (hmax : num < 2 ^ 63) :
    (Update env s).g.Stats.drawCall = num - (rs.RenderList.length : Int) ∧
    (Update env s).g.RenderSystem = some rs := by
  rw [Update_of_created env s rs h hrs] at hflush ⊢
  have hne : pipelineOrder (env.Smooth s.trace).1 (env.Smooth s.trace).2 ≠ [] := by
    simp [pipelineOrder]
  simp only [List.dropLast_append_of_ne_nil _ hne] at hflush
  simp only [hflush]
  refine ⟨?_, hrs⟩
  have hl : (0 : Int) ≤ (rs.RenderList.length : Int) := Int.natCast_nonneg _
  rw [wrapInt_of_range num (by norm_num; omega) hmax]
  exact wrapInt_of_range _ (by norm_num at hlen hmax ⊢; omega)
    (by norm_num at hlen hmax ⊢; omega)

theorem drawCall_accounting_witness :
    Created sampleGame ∧
    (Update sampleEnv sampleGame).g.Stats.drawCall = 10 - (2 : Nat) :=
  ⟨by decide,
   (drawCall_accounting sampleEnv sampleGame
      ⟨⟨800, 600, unbounded⟩,
       [.batchRender .batch, .meshRender .mesh],
       [.sprite, .mesh, .text, .particle]⟩
      10 (by decide) (by decide) (by decide) rfl (by decide) (by decide)).1⟩


/-! ## Viewport, bound and screen size -/

/-- C3, amended: after a non-empty sequence of `OnResize(w, h)` calls on a
game whose render system exists, the camera viewport and the UI screen size
both equal `(float32(w), float32(h))` for the arguments of the most recent
call; these are `(w, h)` themselves whenever both magnitudes are at most
`2^24`. -/
theorem resize_sets_viewport (s : State) (calls : List (Int × Int))
    (hne : calls ≠ []) (hrun : s.halted = none)
    (hrs : s.g.RenderSystem.isSome = true) :
    (resizeAll calls s).viewport =
      some (float32OfInt (calls.getLast hne).1,
            float32OfInt (calls.getLast hne).2) ∧
    (resizeAll calls s).screenSize =
      (float32OfInt (calls.getLast hne).1,
       float32OfInt (calls.getLast hne).2) ∧
    (|(calls.getLast hne).1| ≤ 2 ^ 24 → |(calls.getLast hne).2| ≤ 2 ^ 24 →
      (resizeAll calls s).viewport = some (calls.getLast hne) ∧
      (resizeAll calls s).screenSize = calls.getLast hne) := by
  have hl := live_resizeAll calls.dropLast s hrun hrs
  obtain ⟨rs, hrs1⟩ := Option.isSome_iff_exists.mp hl.2
  have key := OnResize_of_live (calls.getLast hne).1 (calls.getLast hne).2
    (resizeAll calls.dropLast s) rs hl.1 hrs1
  rw [← resizeAll_last calls hne s] at key
  have hv : (resizeAll calls s).viewport =
      some (float32OfInt (calls.getLast hne).1,
            float32OfInt (calls.getLast hne).2) := by
    rw [key]; rfl
  have hs : (resizeAll calls s).screenSize =
      (float32OfInt (calls.getLast hne).1,
       float32OfInt (calls.getLast hne).2) := by
    rw [key]
  refine ⟨hv, hs, fun h1 h2 => ?_⟩
  rw [hv, hs, float32OfInt_exact _ h1, float32OfInt_exact _ h2]
  exact ⟨rfl, rfl⟩

theorem resize_sets_viewport_witness :
    (resizeAll [(1024, 768), (800, 600)] sampleGame).viewport = some (800, 600) ∧
    (resizeAll [(1024, 768), (800, 600)] sampleGame).screenSize = (800, 600) :=
  (resize_sets_viewport sampleGame [(1024, 768), (800, 600)] (by decide)
    (by decide) (by decide)).2.2 (by decide) (by decide)

/-- C3, as stated, fails: `OnResize(16777217, 600)` leaves the viewport and
the UI screen size at width 16777216, since `float32(16777217)` rounds to
`2^24`. -/
theorem resize_viewport_counterexample :
    (resizeAll [(16777217, 600)] sampleGame).viewport = some (16777216, 600) ∧
    (resizeAll [(16777217, 600)] sampleGame).viewport ≠ some (16777217, 600) ∧
    (resizeAll [(16777217, 600)] sampleGame).screenSize = (16777216, 600) ∧
    (resizeAll [(16777217, 600)] sampleGame).screenSize ≠ (16777217, 600) := by
  decide

/-- C4: after a non-empty sequence of `OnResize(w, h)` calls on a game whose
render system exists, whatever the arguments, the camera movement bound is
(left, right, top, bottom) = (-MaxFloat32, MaxFloat32, MaxFloat32,
-MaxFloat32), and one more `OnResize` leaves the bound unchanged. -/
theorem resize_keeps_bound_unbounded (s : State) (calls : List (Int × Int))
    (hne : calls ≠ []) (hrun : s.halted = none)
    (hrs : s.g.RenderSystem.isSome = true) :
    (resizeAll calls s).bound =
      some ⟨-MaxFloat32, MaxFloat32, MaxFloat32, -MaxFloat32⟩ ∧
    ∀ w h : Int,
      (OnResize w h (resizeAll calls s)).bound = (resizeAll calls s).bound := by
  have hl := live_resizeAll calls.dropLast s hrun hrs
  obtain ⟨rs, hrs1⟩ := Option.isSome_iff_exists.mp hl.2
  have key := OnResize_of_live (calls.getLast hne).1 (calls.getLast hne).2
    (resizeAll calls.dropLast s) rs hl.1 hrs1
  rw [← resizeAll_last calls hne s] at key
  have hb : (resizeAll calls s).bound =
      some ⟨-MaxFloat32, MaxFloat32, MaxFloat32, -MaxFloat32⟩ := by
    rw [key]; rfl
  refine ⟨hb, fun w h => ?_⟩
  have hl2 := live_resizeAll calls s hrun hrs
  obtain ⟨rs2, hrs2⟩ := Option.isSome_iff_exists.mp hl2.2
  rw [hb, OnResize_of_live w h (resizeAll calls s) rs2 hl2.1 hrs2]
  rfl

theorem resize_keeps_bound_unbounded_witness :
    (resizeAll [(1024, 768), (1, 5)] sampleGame).bound =
      some ⟨-MaxFloat32, MaxFloat32, MaxFloat32, -MaxFloat32⟩ :=
  (resize_keeps_bound_unbounded sampleGame [(1024, 768), (1, 5)] (by decide)
    (by decide) (by decide)).1

/-- C5, amended: `Create` does not set the camera viewport, the movement bound
or the UI screen size. After `Create` the camera is the one that
`gfx.NewRenderSystem` delivered, the UI screen size is what it was, no call
of `Create` sets a size, and the configured `(W, H)` goes to `dbg.Init`; the
viewport becomes `(float32(W), float32(H))` with a later `OnResize(W, H)`. -/
theorem create_leaves_viewport_unset (env : Env) (ratio : Float32Bits)
    (s : State) (hrun : s.halted = none) :
    (Create env ratio s).g.Camera =
      some (env.NewRenderSystem
        (s.trace ++ [.fpsInit, .gfxInit ratio, .audioInit])).MainCamera ∧
    (Create env ratio s).screenSize = s.screenSize ∧
    ((Create env ratio s).trace.drop s.trace.length).filter Event.setsSize = [] ∧
    Event.dbgInit s.g.Options.W s.g.Options.H ∈
      (Create env ratio s).trace.drop s.trace.length ∧
    (OnResize s.g.Options.W s.g.Options.H (Create env ratio s)).viewport =
      some (float32OfInt s.g.Options.W, float32OfInt s.g.Options.H) := by
  have hC := Create_of_running env ratio s hrun
  refine ⟨by rw [hC]; rfl, by rw [hC], ?_, ?_, ?_⟩
  · rw [hC]
    simp only [List.drop_left, createCalls, List.filter_append]
    rw [filter_logEach_eq_nil _ _ _ (fun _ _ => rfl),
      filter_logEach_eq_nil _ _ _ (fun _ _ => rfl)]
    rfl
  · rw [hC]
    simp [createCalls]
  · have hl := Created_Create env ratio s hrun
    obtain ⟨rs, hrs⟩ := Option.isSome_iff_exists.mp hl.1
    rw [OnResize_of_live _ _ _ rs hl.2.2.2.2.2.2 hrs, hC]
    rfl

theorem create_leaves_viewport_unset_witness :
    (Create sampleEnv 1 (Init (fresh ⟨800, 600⟩))).g.Camera =
      some ⟨0, 0, ⟨0, 0, 0, 0⟩⟩ ∧
    (OnResize 800 600 (Create sampleEnv 1 (Init (fresh ⟨800, 600⟩)))).viewport =
      some (float32OfInt 800, float32OfInt 600) :=
  ⟨(create_leaves_viewport_unset sampleEnv 1 (Init (fresh ⟨800, 600⟩))
      (by decide)).1,
   (create_leaves_viewport_unset sampleEnv 1 (Init (fresh ⟨800, 600⟩))
      (by decide)).2.2.2.2⟩

/-- C5, as stated, fails: on a game constructed with options 800 x 600 the
viewport after `Create` is the one of the render system just built, not
(800, 600); and whatever the collaborators return, two games that differ
only in their options have the same viewport after `Create`. -/
theorem create_viewport_counterexample :
    (Create sampleEnv 1 (Init (fresh ⟨800, 600⟩))).viewport = some (0, 0) ∧
    (Create sampleEnv 1 (Init (fresh ⟨800, 600⟩))).viewport ≠ some (800, 600) ∧
    ∀ (env : Env) (ratio : Float32Bits),
      (Create env ratio (Init (fresh ⟨800, 600⟩))).viewport =
      (Create env ratio (Init (fresh ⟨1024, 768⟩))).viewport := by
  refine ⟨by decide, by decide, fun env ratio => ?_⟩
  rw [Create_of_running env ratio _ (by decide),
    Create_of_running env ratio _ (by decide)]
  rfl

/-! ## The table registry -/

/-- C6: `Init` on a running game whose table collection is empty leaves
exactly seven tables, in the order script, tag, sprite, mesh, transform,
text, particle, each built with its configured capacity: script 1024,
sprite, mesh, transform and text 65536, particle 1024 (the tag table takes
none). -/
theorem init_builds_seven_tables (s : State) (hrun : s.halted = none)
    (hempty : s.g.DB.Tables = []) :
    (Init s).g.DB.Tables =
      [⟨.script, some 1024⟩, ⟨.tag, none⟩, ⟨.sprite, some 65536⟩,
       ⟨.mesh, some 65536⟩, ⟨.transform, some 65536⟩, ⟨.text, some 65536⟩,
       ⟨.particle, some 1024⟩] ∧
    (Init s).g.DB.Tables.length = 7 := by
  rw [Init_of_running s hrun]
  simp only [hempty, List.nil_append]
  exact ⟨by decide, by decide⟩

theorem init_builds_seven_tables_witness :
    (Init (fresh ⟨800, 600⟩)).g.DB.Tables =
      [⟨.script, some 1024⟩, ⟨.tag, none⟩, ⟨.sprite, some 65536⟩,
       ⟨.mesh, some 65536⟩, ⟨.transform, some 65536⟩, ⟨.text, some 65536⟩,
       ⟨.particle, some 1024⟩] :=
  (init_builds_seven_tables (fresh ⟨800, 600⟩) (by decide) (by decide)).1

/-- C9: during `Create` the table collection of the registry is handed over
by `RequireTable` exactly four times, once to each of the render, particle
simulation, script and animation subsystems, in that order; each receives
the full ordered collection that the registry holds, and `Create` leaves
that collection as it was. -/
theorem create_hands_tables_once (env : Env) (ratio : Float32Bits) (s : State)
    (hrun : s.halted = none) :
    ((Create env ratio s).trace.drop s.trace.length).filter
        Event.isRequireTable =
      [.requireTable .render s.g.DB.Tables,
       .requireTable .particle s.g.DB.Tables,
       .requireTable .script s.g.DB.Tables,
       .requireTable .animation s.g.DB.Tables] ∧
    (Create env ratio s).g.DB.Tables = s.g.DB.Tables := by
  have hC := Create_of_running env ratio s hrun
  refine ⟨?_, by rw [hC]⟩
  rw [hC]
  simp only [List.drop_left, createCalls, List.filter_append]
  rw [filter_logEach_eq_nil _ _ _ (fun _ _ => rfl),
    filter_logEach_eq_nil _ _ _ (fun _ _ => rfl)]
  rfl

theorem create_hands_tables_once_witness :
    (Init (fresh ⟨800, 600⟩)).g.DB.Tables.length = 7 ∧
    ((Create sampleEnv 1 (Init (fresh ⟨800, 600⟩))).trace.drop
        (Init (fresh ⟨800, 600⟩)).trace.length).filter Event.isRequireTable =
      [.requireTable .render (Init (fresh ⟨800, 600⟩)).g.DB.Tables,
       .requireTable .particle (Init (fresh ⟨800, 600⟩)).g.DB.Tables,
       .requireTable .script (Init (fresh ⟨800, 600⟩)).g.DB.Tables,
       .requireTable .animation (Init (fresh ⟨800, 600⟩)).g.DB.Tables] :=
  ⟨by decide,
   (create_hands_tables_once sampleEnv 1 (Init (fresh ⟨800, 600⟩))
      (by decide)).1⟩


/-- C7: over `n` consecutive `Update` calls on a created game, the calls of
the input protocol are, frame after frame: the latch `InputSystem.Frame`,
`SceneManager.Update`, `ScriptSystem.Update`, then `InputSystem.Reset`. So
each reset comes after the latch and the two consumers of its frame and
before the latch of the next frame, and latches and resets alternate. -/
theorem input_reset_between_latches (env : Env) (n : Nat) (s : State)
    (h : Created s) :
    ∃ dts : List Float32Bits, dts.length = n ∧
      ((frames env n s).trace.drop s.trace.length).filter Event.isInputStage =
        latchUpdateReset dts := by
  obtain ⟨rs, hlen, htr, _⟩ := frames_trace env n s h
  refine ⟨rs.map (·.1), by simp [hlen], ?_⟩
  rw [htr, List.drop_left, filter_framesCalls]

theorem input_reset_between_latches_witness :
    ∃ dts : List Float32Bits, dts.length = 2 ∧
      ((frames sampleEnv 2 sampleGame).trace.drop
          sampleGame.trace.length).filter Event.isInputStage =
        latchUpdateReset dts :=
  input_reset_between_latches sampleEnv 2 sampleGame (by decide)

/-- C8, amended: in every state reached from a fresh game by public
operations among which `Init` occurs at most once, each table kind appears
at most once in `DB.Tables`, the collection is empty or the seven tables of
`Init`, and operations other than `Init` never change it. -/
theorem registry_invariant_single_init (env : Env) (opts : Options)
    (ops : List Op) (h : ops.countP Op.isInit ≤ 1) :
    (∀ k : TableKind,
      (run env ops (fresh opts)).g.DB.Tables.countP (fun t => t.kind = k) ≤ 1) ∧
    ((run env ops (fresh opts)).g.DB.Tables = [] ∨
      (run env ops (fresh opts)).g.DB.Tables = sevenTables) ∧
    ∀ more : List Op, more.countP Op.isInit = 0 →
      (run env more (run env ops (fresh opts))).g.DB.Tables =
        (run env ops (fresh opts)).g.DB.Tables := by
  have hT := run_Tables_of_one_Init env ops (fresh opts) h
  have h0 : (fresh opts).g.DB.Tables = [] := rfl
  rw [h0, List.nil_append] at hT
  refine ⟨fun k => ?_, hT, fun more hm => run_Tables_of_no_Init env more _ hm⟩
  rcases hT with hT | hT <;> rw [hT]
  · simp
  · cases k <;> decide

theorem registry_invariant_single_init_witness :
    (run sampleEnv [.Init, .Create 1, .OnResize 800 600, .Update, .Destroy]
      (fresh ⟨800, 600⟩)).g.DB.Tables = [] ∨
    (run sampleEnv [.Init, .Create 1, .OnResize 800 600, .Update, .Destroy]
      (fresh ⟨800, 600⟩)).g.DB.Tables = sevenTables :=
  (registry_invariant_single_init sampleEnv ⟨800, 600⟩
    [.Init, .Create 1, .OnResize 800 600, .Update, .Destroy] (by decide)).2.1

/-- C8, as stated, fails: calling `Init` twice on a fresh game leaves 14
tables, each kind twice, where the first `Init` had left 7. -/
theorem registry_invariant_counterexample :
    (run sampleEnv [.Init] (fresh ⟨800, 600⟩)).g.DB.Tables.length = 7 ∧
    (run sampleEnv [.Init, .Init] (fresh ⟨800, 600⟩)).g.DB.Tables.length = 14 ∧
    (run sampleEnv [.Init, .Init] (fresh ⟨800, 600⟩)).g.DB.Tables.countP
      (fun t => t.kind = .script) = 2 ∧
    (run sampleEnv [.Init, .Init] (fresh ⟨800, 600⟩)).halted = none := by
  decide

/-! ## Update before Create -/

/-- C10, amended: `Update` has no guard for a missing `Create`. On a running
game whose input and render system pointers are nil it reports nothing
first: it calls `FPS.Smooth`, then invokes `InputSystem.Frame` through the
nil pointer, and the frame ends in a nil dereference fault (inside a stage
that does not survive a nil receiver, or at the latest where `RenderList` is
read). -/
theorem update_before_create_unguarded (env : Env) (s : State)
    (hrun : s.halted = none) (hin : s.g.InputSystem = none)
    (hrs : s.g.RenderSystem = none) :
    (∃ rest, (Update env s).trace =
      s.trace ++ [.fpsSmooth, .callOnNil .inputFrame] ++ rest) ∧
    (Update env s).halted.isSome = true := by
  constructor
  · show TraceExtends (s.trace ++ [.fpsSmooth, .callOnNil .inputFrame])
      (Update env s)
    unfold Update
    rw [callThen_of_running _ _ _ hrun]
    simp only []
    apply ext_callThen
    · intro tr t ht
      exact ext_readRS _ _ _ (fun rs t2 h2 => ext_modify _ _ _ h2) ht
    · apply ext_emit
      unfold DrawProfile
      apply ext_emit
      apply ext_emitBy
      apply ext_emit
      apply ext_emit
      apply ext_invoke
      apply ext_invoke
      apply ext_invoke
      apply ext_invoke
      apply ext_invoke
      apply ext_invoke
      apply ext_emit
      refine ⟨[], ?_⟩
      simp [State.invoke, State.modify, hrun, hin]
  · unfold Update
    rw [callThen_of_running _ _ _ hrun]
    simp only []
    apply callThen_readRS_halts
    simp only [DrawProfile, emit_g, emitBy_g, invoke_g]
    refine Eq.trans (modify_RenderSystem _ _ ?_) hrs
    intro g
    rfl

theorem update_before_create_unguarded_witness :
    (∃ rest, (Update sampleEnv (fresh ⟨800, 600⟩)).trace =
      (fresh ⟨800, 600⟩).trace ++ [.fpsSmooth, .callOnNil .inputFrame] ++ rest) ∧
    (Update sampleEnv (fresh ⟨800, 600⟩)).halted.isSome = true :=
  update_before_create_unguarded sampleEnv (fresh ⟨800, 600⟩) (by decide)
    (by decide) (by decide)

/-- C10, as stated, fails: on a fresh game `Update` runs `FPS.Smooth` and
invokes `InputSystem.Frame` on the nil input system, where it faults; with
collaborators that survive a nil receiver every stage of the pipeline is
invoked on a nil subsystem before the fault at the read of `RenderList`. -/
theorem update_before_create_counterexample :
    (Update sampleEnv (fresh ⟨800, 600⟩)).trace =
      [.fpsSmooth, .callOnNil .inputFrame] ∧
    (Update sampleEnv (fresh ⟨800, 600⟩)).halted =
      some (.nilReceiver .inputFrame) ∧
    (Update tolerantEnv (fresh ⟨800, 600⟩)).trace =
      [.fpsSmooth, .callOnNil .inputFrame, .sceneUpdate 16,
       .callOnNil (.scriptUpdate 16), .callOnNil .inputReset,
       .callOnNil (.animationUpdate 16), .callOnNil (.particleUpdate 16),
       .callOnNil (.renderUpdate 16), .callOnNil (.uiDraw 16),
       .printVerb, .printDrawCall, .printFPS 60, .dbgNextFrame,
       .audioAdvanceFrame, .gfxFlush] ∧
    (Update tolerantEnv (fresh ⟨800, 600⟩)).halted = some .nilRenderSystem := by
  decide

end Korok
